import Mathlib

/-!
Verification of the session-scoped multi-chain RPC dispatch layer of the
chia-wallet-connect dApp (src/contexts/JsonRpcContext.tsx and
src/constants/default.ts), shallowly embedded in Lean.

Stateful React pieces (useState pending/result) are modelled by explicit
state passing: a handler produces a list of state-mutation events
(setPending / setResult calls, in program order), which are folded over an
explicit state.  Asynchronous wallet / network interaction
(client.request) is modelled by a transport function parameter returning
Except; external cryptographic verifiers (ethers, cosmos-wallet,
erdjs, ...) are function parameters.  Each handler additionally returns the
list of wire requests it handed to the transport, so that claims about
"before/after the request is sent" are statable.
-/

/-- The normalized RPC result record (IFormattedRpcResponse,
JsonRpcContext.tsx lines 55-60).  `method` and `address` are optional in the
source interface. -/
structure IFormattedRpcResponse where
  method : Option String
  address : Option String
  valid : Bool
  result : String
deriving DecidableEq, Repr

/-- Opaque WalletConnect sign client handle (external collaborator). -/
structure SignClient where
deriving DecidableEq, Repr

/-- Opaque session handle; the source only reads `session.topic`. -/
structure Session where
  topic : String
deriving DecidableEq, Repr

/-- Component state of JsonRpcContextProvider: the pending flag and the
last stored result (useState at lines 131-132). -/
structure RpcState where
  pending : Bool
  result : Option IFormattedRpcResponse
deriving DecidableEq, Repr

/-- A state-mutation event: a call to setPending or setResult. -/
inductive Event where
  | setPending (b : Bool)
  | setResult (r : IFormattedRpcResponse)
deriving DecidableEq, Repr

/-- Apply one event to the provider state. -/
def applyEvent (s : RpcState) : Event → RpcState
  | .setPending b => { s with pending := b }
  | .setResult r => { s with result := some r }

/-- Apply a list of events in program order. -/
def applyEvents (s : RpcState) (es : List Event) : RpcState :=
  es.foldl applyEvent s

/-- The dispatch wrapper `_createJsonRpcRequestHandler`
(JsonRpcContext.tsx lines 140-169).  Given the client/session handles and
the inner chain routine (modelled by its awaited outcome: a normal return
of a record, or a thrown error message), it either throws one of the two
precondition errors (returning `.error`, producing no state mutation at
all), or runs the try/catch/finally block, whose mutations in program
order are: setPending true; then setResult with the returned record (try)
or with the error-normalizing record `{address, valid: false, result:
err.message}` (catch, note: no method field); then setPending false
(finally). -/
def _createJsonRpcRequestHandler
    (client : Option SignClient) (session : Option Session)
    (rpcRequest : String → String → Except String IFormattedRpcResponse)
    (chainId address : String) : Except String (List Event) :=
  if client.isNone then
    .error "WalletConnect is not initialized"
  else if session.isNone then
    .error "Session is not connected"
  else
    match rpcRequest chainId address with
    | .ok r =>
        .ok [.setPending true, .setResult r, .setPending false]
    | .error msg =>
        .ok [.setPending true,
             .setResult { method := none, address := some address,
                          valid := false, result := msg },
             .setPending false]

/-- Run a wrapped operation from a given provider state.  A `.error`
outcome is a rejection thrown before the try block: it mutates nothing,
so the state is returned unchanged together with the error message.  A
`.ok` trace is folded into the state; the wrapped async function itself
then resolves (second component `none`). -/
def invokeWrapped
    (client : Option SignClient) (session : Option Session)
    (rpcRequest : String → String → Except String IFormattedRpcResponse)
    (chainId address : String) (s : RpcState) : RpcState × Option String :=
  match _createJsonRpcRequestHandler client session rpcRequest chainId address with
  | .error e => (s, some e)
  | .ok evs => (applyEvents s evs, none)

/-!  Wire-method constants (src/constants/default.ts).  Each enum member is
transcribed as a string definition; the two members the Chia handlers
reference but the enum does not declare (CHIA_UNKNOWN_TEST_COMMAND and
CHIA_SHOW_NOTIFICATION) have no definition here, exactly as in the source,
where the member access evaluates to undefined at runtime.  -/

namespace DEFAULT_EIP155_METHODS

def ETH_SEND_TRANSACTION : String := "eth_sendTransaction"

def ETH_SIGN_TRANSACTION : String := "eth_signTransaction"

def ETH_SIGN : String := "eth_sign"

def PERSONAL_SIGN : String := "personal_sign"

def ETH_SIGN_TYPED_DATA : String := "eth_signTypedData"

end DEFAULT_EIP155_METHODS

namespace DEFAULT_COSMOS_METHODS

def COSMOS_SIGN_DIRECT : String := "cosmos_signDirect"

def COSMOS_SIGN_AMINO : String := "cosmos_signAmino"

end DEFAULT_COSMOS_METHODS

namespace DEFAULT_SOLANA_METHODS

def SOL_SIGN_TRANSACTION : String := "solana_signTransaction"

def SOL_SIGN_MESSAGE : String := "solana_signMessage"

end DEFAULT_SOLANA_METHODS

namespace DEFAULT_POLKADOT_METHODS

def POLKADOT_SIGN_TRANSACTION : String := "polkadot_signTransaction"

def POLKADOT_SIGN_MESSAGE : String := "polkadot_signMessage"

end DEFAULT_POLKADOT_METHODS

namespace DEFAULT_NEAR_METHODS

def NEAR_SIGN_AND_SEND_TRANSACTION : String := "near_signAndSendTransaction"

def NEAR_SIGN_AND_SEND_TRANSACTIONS : String := "near_signAndSendTransactions"

end DEFAULT_NEAR_METHODS

namespace DEFAULT_ELROND_METHODS

def ELROND_SIGN_TRANSACTION : String := "erd_signTransaction"

def ELROND_SIGN_TRANSACTIONS : String := "erd_signTransactions"

def ELROND_SIGN_MESSAGE : String := "erd_signMessage"

end DEFAULT_ELROND_METHODS

namespace DEFAULT_CHIA_METHODS

def CHIA_GET_WALLETS : String := "chia_getWallets"

def CHIA_GET_CAT_WALLET_INFO : String := "chia_getCATWalletInfo"

def CHIA_SEND_TRANSACTION : String := "chia_sendTransaction"

def CHIA_SPEND_CAT : String := "chia_spendCAT"

def CHIA_NEW_ADDRESS : String := "chia_getNextAddress"

def CHIA_LOG_IN : String := "chia_logIn"

def CHIA_SIGN_MESSAGE_BY_ADDRESS : String := "chia_signMessageByAddress"

def CHIA_SIGN_MESSAGE_BY_ID : String := "chia_signMessageById"

def CHIA_GET_WALLET_SYNC_STATUS : String := "chia_getSyncStatus"

def CHIA_GET_NFT_INFO : String := "chia_getNFTInfo"

def CHIA_GET_NFTS : String := "chia_getNFTs"

def CHIA_TAKE_OFFER : String := "chia_takeOffer"

def CHIA_CREATE_OFFER_FOR_IDS : String := "chia_createOfferForIds"

end DEFAULT_CHIA_METHODS

/-- A request handed to the session transport (client.request).  Only the
wire method string matters for the claims; it is optional because the
Chia handlers whose enum constants are missing send method = undefined. -/
structure WireRequest where
  method : Option String
deriving DecidableEq, Repr

/-- Opaque chain metadata entry (ChainDataContext, external). -/
structure ChainData where
deriving DecidableEq, Repr

/-- JavaScript `chainId.split(":")`: the colon-separated parts of the
string, as a list of strings. -/
def jsSplitColon (s : String) : List String :=
  (s.toList.splitOn ':').map (fun cs => String.mk cs)

/-- `chainData[namespace][reference]` after
`const [namespace, reference] = chainId.split(":")` — the two-level lookup
keyed by the first two colon-separated parts of the chainId.  When the
chainId has no colon, reference is undefined in the source and the lookup
yields undefined; modelled as `none`. -/
def lookupChainData (chainData : String → String → Option ChainData)
    (chainId : String) : Option ChainData :=
  match jsSplitColon chainId with
  | ns :: ref :: _ => chainData ns ref
  | _ => none

/-- `chainId.split(":")[1]` used by the Elrond handlers (the chain
reference); empty when the chainId has no colon. -/
def referencePart (chainId : String) : String :=
  ((jsSplitColon chainId).drop 1).headD ""

/-- The EVM test transaction returned by the helper formatTestTransaction
(src/helpers, a pure request formatter outside this file's modelled scope:
it is passed in as data).  Only gasPrice and gasLimit feed the modelled
control flow, via BigNumber.from(tx.gasPrice).mul(tx.gasLimit); the
remaining fields influence no claim and are elided. -/
structure EthTx where
  gasPrice : Nat
  gasLimit : Nat
deriving DecidableEq, Repr

/-- ethereumRpc.testSendTransaction inner routine (JsonRpcContext.tsx lines
216-254).  `balances` models BigNumber.from of
balances[account][0].balance with the falsy-to-"0" coercion applied:
`none` stands for a failing lookup (which throws a TypeError in the
source), `some b` for the coerced numeric balance of the account's first
asset.  Returns the wire requests sent plus the awaited outcome. -/
def ethTestSendTransaction
    (accounts : List String) (balances : String → Option Nat) (tx : EthTx)
    (transport : WireRequest → Except String String)
    (chainId address : String) :
    List WireRequest × Except String IFormattedRpcResponse :=
  let caipAccountAddress := chainId ++ ":" ++ address
  match accounts.find? (fun account => account == caipAccountAddress) with
  | none => ([], .error ("Account for " ++ caipAccountAddress ++ " not found"))
  | some account =>
    match balances account with
    | none => ([], .error "Cannot read properties of undefined")
    | some balance =>
      if balance < tx.gasPrice * tx.gasLimit then
        ([], .ok { method := some DEFAULT_EIP155_METHODS.ETH_SEND_TRANSACTION,
                   address := some address, valid := false,
                   result := "Insufficient funds for intrinsic transaction cost" })
      else
        let req : WireRequest :=
          { method := some DEFAULT_EIP155_METHODS.ETH_SEND_TRANSACTION }
        match transport req with
        | .error e => ([req], .error e)
        | .ok result =>
          ([req], .ok { method := some DEFAULT_EIP155_METHODS.ETH_SEND_TRANSACTION,
                        address := some address, valid := true, result := result })

/-- ethereumRpc.testSignTransaction inner routine (lines 255-286).
`verifySignedTx` models
EthTransaction.fromSerializedTx(signedTx).verifySignature(). -/
def ethTestSignTransaction
    (accounts : List String)
    (verifySignedTx : String → Bool)
    (transport : WireRequest → Except String String)
    (chainId address : String) :
    List WireRequest × Except String IFormattedRpcResponse :=
  let caipAccountAddress := chainId ++ ":" ++ address
  match accounts.find? (fun account => account == caipAccountAddress) with
  | none => ([], .error ("Account for " ++ caipAccountAddress ++ " not found"))
  | some _ =>
    let req : WireRequest :=
      { method := some DEFAULT_EIP155_METHODS.ETH_SIGN_TRANSACTION }
    match transport req with
    | .error e => ([req], .error e)
    | .ok signedTx =>
      ([req], .ok { method := some DEFAULT_EIP155_METHODS.ETH_SIGN_TRANSACTION,
                    address := some address, valid := verifySignedTx signedTx,
                    result := signedTx })

/-- ethereumRpc.testSignPersonalMessage inner routine (lines 287-331).
`message` is the freshly built timestamped test message; `verify` models
_verifyEip155MessageSignature(message, signature, address).  Note the
program order transcribed from the source: the request is sent over the
transport FIRST, and only then is the chainId split and the chain-data
entry checked. -/
def ethTestSignPersonalMessage
    (chainData : String → String → Option ChainData)
    (verify : String → String → String → Bool)
    (transport : WireRequest → Except String String)
    (chainId address message : String) :
    List WireRequest × Except String IFormattedRpcResponse :=
  let req : WireRequest := { method := some DEFAULT_EIP155_METHODS.PERSONAL_SIGN }
  match transport req with
  | .error e => ([req], .error e)
  | .ok signature =>
    match lookupChainData chainData chainId with
    | none => ([req], .error ("Missing chain data for chainId: " ++ chainId))
    | some _ =>
      ([req], .ok { method := some DEFAULT_EIP155_METHODS.PERSONAL_SIGN,
                    address := some address,
                    valid := verify message signature address,
                    result := signature })

/-- ethereumRpc.testEthSign inner routine (lines 332-374).  Same program
order as personal_sign (request first, chain-data check after); the stored
record's method is the enum constant with a " (standard)" suffix appended,
while the wire request carries the bare constant. -/
def ethTestEthSign
    (chainData : String → String → Option ChainData)
    (verify : String → String → String → Bool)
    (transport : WireRequest → Except String String)
    (chainId address message : String) :
    List WireRequest × Except String IFormattedRpcResponse :=
  let req : WireRequest := { method := some DEFAULT_EIP155_METHODS.ETH_SIGN }
  match transport req with
  | .error e => ([req], .error e)
  | .ok signature =>
    match lookupChainData chainData chainId with
    | none => ([req], .error ("Missing chain data for chainId: " ++ chainId))
    | some _ =>
      ([req], .ok { method := some (DEFAULT_EIP155_METHODS.ETH_SIGN ++ " (standard)"),
                    address := some address,
                    valid := verify message signature address,
                    result := signature })

/-- cosmosRpc.testSignDirect inner routine (lines 423-488).  The fixture
sign doc (fixed fee/pubkey/gasLimit/accountNumber/sequence/body bytes plus
the chain reference) is baked into the `verifyDirect` parameter, which
models verifyDirectSignature(address, result.signature, signDoc).  Program
order as in the source: request first, chain-data check after. -/
def cosmosTestSignDirect
    (chainData : String → String → Option ChainData)
    (verifyDirect : String → String → Bool)
    (transport : WireRequest → Except String String)
    (chainId address : String) :
    List WireRequest × Except String IFormattedRpcResponse :=
  let req : WireRequest := { method := some DEFAULT_COSMOS_METHODS.COSMOS_SIGN_DIRECT }
  match transport req with
  | .error e => ([req], .error e)
  | .ok signature =>
    match lookupChainData chainData chainId with
    | none => ([req], .error ("Missing chain data for chainId: " ++ chainId))
    | some _ =>
      ([req], .ok { method := some DEFAULT_COSMOS_METHODS.COSMOS_SIGN_DIRECT,
                    address := some address,
                    valid := verifyDirect address signature,
                    result := signature })

/-- cosmosRpc.testSignAmino inner routine (lines 489-537).  The fixed amino
sign doc fixture is baked into `verifyAmino`, which models
verifyAminoSignature(address, result.signature, signDoc).  Request first,
chain-data check after, as in the source. -/
def cosmosTestSignAmino
    (chainData : String → String → Option ChainData)
    (verifyAmino : String → String → Bool)
    (transport : WireRequest → Except String String)
    (chainId address : String) :
    List WireRequest × Except String IFormattedRpcResponse :=
  let req : WireRequest := { method := some DEFAULT_COSMOS_METHODS.COSMOS_SIGN_AMINO }
  match transport req with
  | .error e => ([req], .error e)
  | .ok signature =>
    match lookupChainData chainData chainId with
    | none => ([req], .error ("Missing chain data for chainId: " ++ chainId))
    | some _ =>
      ([req], .ok { method := some DEFAULT_COSMOS_METHODS.COSMOS_SIGN_AMINO,
                    address := some address,
                    valid := verifyAmino address signature,
                    result := signature })

/-- chiaRpc.testGetWallets inner routine (lines 753-778).  The wallet's
JSON response (already stringified here) is stored verbatim and `valid` is
the literal `true`: no verifier exists or is consulted for this family. -/
def chiaTestGetWallets
    (transport : WireRequest → Except String String)
    (chainId address : String) :
    List WireRequest × Except String IFormattedRpcResponse :=
  let req : WireRequest := { method := some DEFAULT_CHIA_METHODS.CHIA_GET_WALLETS }
  match transport req with
  | .error e => ([req], .error e)
  | .ok result =>
    ([req], .ok { method := some DEFAULT_CHIA_METHODS.CHIA_GET_WALLETS,
                  address := some address, valid := true, result := result })

/-- An Elrond transaction as built by the handler fixtures (erdjs
Transaction constructor arguments; addresses kept as their bech32
strings). -/
structure ElrondTransaction where
  nonce : Nat
  value : String
  receiver : String
  sender : String
  gasPrice : Nat
  gasLimit : Nat
  chainID : String
  data : Option String
deriving DecidableEq, Repr

/-- First batch fixture (lines 1379-1388): nonce 1, payload "testdata". -/
def elrondTestTransaction (address reference : String) : ElrondTransaction :=
  { nonce := 1, value := "10000000000000000000", receiver := address,
    sender := address, gasPrice := 1000000000, gasLimit := 50000,
    chainID := reference, data := some "testdata" }

/-- Second batch fixture (lines 1391-1399): nonce 2, no payload. -/
def elrondTestTransaction2 (address reference : String) : ElrondTransaction :=
  { nonce := 2, value := "20000000000000000000", receiver := address,
    sender := address, gasPrice := 1000000000, gasLimit := 50000,
    chainID := reference, data := none }

/-- Third batch fixture (lines 1401-1411): nonce 3, payload "third". -/
def elrondTestTransaction3 (address reference : String) : ElrondTransaction :=
  { nonce := 3, value := "300000000000000000", receiver := address,
    sender := address, gasPrice := 1000000000, gasLimit := 50000,
    chainID := reference, data := some "third" }

/-- elrondRpc.testSignTransactions inner routine (lines 1368-1460).
`verify` models verifier.verify on a transaction with the corresponding
returned signature applied, where the verifier is
UserVerifier.fromAddress(new Address(address)).  The transport returns the
list of signatures from the wallet; the source indexes
result.signatures[0..2] against the three fixtures, transcribed here as
the reduce over the zipped list with accumulator true (JS:
acc && verifier.verify(current)); the zip matches the source whenever at
least three signatures come back (fewer makes the source throw inside the
catch). -/
def elrondTestSignTransactions
    (verify : ElrondTransaction → String → Bool)
    (transport : WireRequest → Except String (List String))
    (chainId address : String) :
    List WireRequest × Except String IFormattedRpcResponse :=
  let reference := referencePart chainId
  let txs := [elrondTestTransaction address reference,
              elrondTestTransaction2 address reference,
              elrondTestTransaction3 address reference]
  let req : WireRequest := { method := some DEFAULT_ELROND_METHODS.ELROND_SIGN_TRANSACTIONS }
  match transport req with
  | .error e => ([req], .error e)
  | .ok signatures =>
    let valid := (txs.zip signatures).foldl
      (fun acc p => acc && verify p.1 p.2) true
    ([req], .ok { method := some DEFAULT_ELROND_METHODS.ELROND_SIGN_TRANSACTIONS,
                  address := some address, valid := valid,
                  result := String.intercalate ", " signatures })

/-- How a handler's success path obtains the stored `valid` flag:
`verifier` when it is the verdict of a client-side cryptographic check of
the returned signature against the original payload, `alwaysTrue` when the
source writes the literal `true`. -/
inductive ValidSource where
  | verifier
  | alwaysTrue
deriving DecidableEq, Repr

/-- One entry of a per-family RPC method table: the operation's property
name, the wire-method enum constant it references (`none` when the
referenced enum member is not declared in default.ts, so the access yields
undefined), the method string of the record it stores on success, and how
it obtains `valid`.  Transcribed entry by entry from JsonRpcContext.tsx and
src/constants/default.ts. -/
structure MethodEntry where
  family : String
  opName : String
  declaredWire : Option String
  storedMethod : Option String
  validSource : ValidSource
deriving DecidableEq, Repr

/-- All method-table entries of the eight per-family tables (ethereumRpc,
cosmosRpc, solanaRpc, polkadotRpc, nearRpc, elrondRpc, chiaRpc), in source
order.  ping is not a chain method-table entry and is excluded. -/
def methodTable : List MethodEntry :=
  [ { family := "eip155", opName := "testSendTransaction",
      declaredWire := some DEFAULT_EIP155_METHODS.ETH_SEND_TRANSACTION,
      storedMethod := some DEFAULT_EIP155_METHODS.ETH_SEND_TRANSACTION,
      validSource := .alwaysTrue },
    { family := "eip155", opName := "testSignTransaction",
      declaredWire := some DEFAULT_EIP155_METHODS.ETH_SIGN_TRANSACTION,
      storedMethod := some DEFAULT_EIP155_METHODS.ETH_SIGN_TRANSACTION,
      validSource := .verifier },
    { family := "eip155", opName := "testSignPersonalMessage",
      declaredWire := some DEFAULT_EIP155_METHODS.PERSONAL_SIGN,
      storedMethod := some DEFAULT_EIP155_METHODS.PERSONAL_SIGN,
      validSource := .verifier },
    { family := "eip155", opName := "testEthSign",
      declaredWire := some DEFAULT_EIP155_METHODS.ETH_SIGN,
      storedMethod := some (DEFAULT_EIP155_METHODS.ETH_SIGN ++ " (standard)"),
      validSource := .verifier },
    { family := "eip155", opName := "testSignTypedData",
      declaredWire := some DEFAULT_EIP155_METHODS.ETH_SIGN_TYPED_DATA,
      storedMethod := some DEFAULT_EIP155_METHODS.ETH_SIGN_TYPED_DATA,
      validSource := .verifier },
    { family := "cosmos", opName := "testSignDirect",
      declaredWire := some DEFAULT_COSMOS_METHODS.COSMOS_SIGN_DIRECT,
      storedMethod := some DEFAULT_COSMOS_METHODS.COSMOS_SIGN_DIRECT,
      validSource := .verifier },
    { family := "cosmos", opName := "testSignAmino",
      declaredWire := some DEFAULT_COSMOS_METHODS.COSMOS_SIGN_AMINO,
      storedMethod := some DEFAULT_COSMOS_METHODS.COSMOS_SIGN_AMINO,
      validSource := .verifier },
    { family := "solana", opName := "testSignTransaction",
      declaredWire := some DEFAULT_SOLANA_METHODS.SOL_SIGN_TRANSACTION,
      storedMethod := some DEFAULT_SOLANA_METHODS.SOL_SIGN_TRANSACTION,
      validSource := .verifier },
    { family := "solana", opName := "testSignMessage",
      declaredWire := some DEFAULT_SOLANA_METHODS.SOL_SIGN_MESSAGE,
      storedMethod := some DEFAULT_SOLANA_METHODS.SOL_SIGN_MESSAGE,
      validSource := .verifier },
    { family := "polkadot", opName := "testSignTransaction",
      declaredWire := some DEFAULT_POLKADOT_METHODS.POLKADOT_SIGN_TRANSACTION,
      storedMethod := some DEFAULT_POLKADOT_METHODS.POLKADOT_SIGN_TRANSACTION,
      validSource := .verifier },
    { family := "polkadot", opName := "testSignMessage",
      declaredWire := some DEFAULT_POLKADOT_METHODS.POLKADOT_SIGN_MESSAGE,
      storedMethod := some DEFAULT_POLKADOT_METHODS.POLKADOT_SIGN_MESSAGE,
      validSource := .verifier },
    { family := "near", opName := "testSignAndSendTransaction",
      declaredWire := some DEFAULT_NEAR_METHODS.NEAR_SIGN_AND_SEND_TRANSACTION,
      storedMethod := some DEFAULT_NEAR_METHODS.NEAR_SIGN_AND_SEND_TRANSACTION,
      validSource := .alwaysTrue },
    { family := "near", opName := "testSignAndSendTransactions",
      declaredWire := some DEFAULT_NEAR_METHODS.NEAR_SIGN_AND_SEND_TRANSACTIONS,
      storedMethod := some DEFAULT_NEAR_METHODS.NEAR_SIGN_AND_SEND_TRANSACTIONS,
      validSource := .alwaysTrue },
    { family := "elrond", opName := "testSignTransaction",
      declaredWire := some DEFAULT_ELROND_METHODS.ELROND_SIGN_TRANSACTION,
      storedMethod := some DEFAULT_ELROND_METHODS.ELROND_SIGN_TRANSACTION,
      validSource := .verifier },
    { family := "elrond", opName := "testSignTransactions",
      declaredWire := some DEFAULT_ELROND_METHODS.ELROND_SIGN_TRANSACTIONS,
      storedMethod := some DEFAULT_ELROND_METHODS.ELROND_SIGN_TRANSACTIONS,
      validSource := .verifier },
    { family := "elrond", opName := "testSignMessage",
      declaredWire := some DEFAULT_ELROND_METHODS.ELROND_SIGN_MESSAGE,
      storedMethod := some DEFAULT_ELROND_METHODS.ELROND_SIGN_MESSAGE,
      validSource := .verifier },
    { family := "chia", opName := "testGetWallets",
      declaredWire := some DEFAULT_CHIA_METHODS.CHIA_GET_WALLETS,
      storedMethod := some DEFAULT_CHIA_METHODS.CHIA_GET_WALLETS,
      validSource := .alwaysTrue },
    { family := "chia", opName := "testGetCATWalletInfo",
      declaredWire := some DEFAULT_CHIA_METHODS.CHIA_GET_CAT_WALLET_INFO,
      storedMethod := some DEFAULT_CHIA_METHODS.CHIA_GET_CAT_WALLET_INFO,
      validSource := .alwaysTrue },
    { family := "chia", opName := "testSendTransaction",
      declaredWire := some DEFAULT_CHIA_METHODS.CHIA_SEND_TRANSACTION,
      storedMethod := some DEFAULT_CHIA_METHODS.CHIA_SEND_TRANSACTION,
      validSource := .alwaysTrue },
    { family := "chia", opName := "testSpendCAT",
      declaredWire := some DEFAULT_CHIA_METHODS.CHIA_SPEND_CAT,
      storedMethod := some DEFAULT_CHIA_METHODS.CHIA_SPEND_CAT,
      validSource := .alwaysTrue },
    { family := "chia", opName := "testNewAddress",
      declaredWire := some DEFAULT_CHIA_METHODS.CHIA_NEW_ADDRESS,
      storedMethod := some DEFAULT_CHIA_METHODS.CHIA_NEW_ADDRESS,
      validSource := .alwaysTrue },
    { family := "chia", opName := "testLogIn",
      declaredWire := some DEFAULT_CHIA_METHODS.CHIA_LOG_IN,
      storedMethod := some DEFAULT_CHIA_METHODS.CHIA_LOG_IN,
      validSource := .alwaysTrue },
    { family := "chia", opName := "testSignMessageByAddress",
      declaredWire := some DEFAULT_CHIA_METHODS.CHIA_SIGN_MESSAGE_BY_ADDRESS,
      storedMethod := some DEFAULT_CHIA_METHODS.CHIA_SIGN_MESSAGE_BY_ADDRESS,
      validSource := .alwaysTrue },
    { family := "chia", opName := "testSignMessageById",
      declaredWire := some DEFAULT_CHIA_METHODS.CHIA_SIGN_MESSAGE_BY_ID,
      storedMethod := some DEFAULT_CHIA_METHODS.CHIA_SIGN_MESSAGE_BY_ID,
      validSource := .alwaysTrue },
    { family := "chia", opName := "testGetWalletSyncStatus",
      declaredWire := some DEFAULT_CHIA_METHODS.CHIA_GET_WALLET_SYNC_STATUS,
      storedMethod := some DEFAULT_CHIA_METHODS.CHIA_GET_WALLET_SYNC_STATUS,
      validSource := .alwaysTrue },
    { family := "chia", opName := "testGetNFTInfo",
      declaredWire := some DEFAULT_CHIA_METHODS.CHIA_GET_NFT_INFO,
      storedMethod := some DEFAULT_CHIA_METHODS.CHIA_GET_NFT_INFO,
      validSource := .alwaysTrue },
    { family := "chia", opName := "testGetNFTs",
      declaredWire := some DEFAULT_CHIA_METHODS.CHIA_GET_NFTS,
      storedMethod := some DEFAULT_CHIA_METHODS.CHIA_GET_NFTS,
      validSource := .alwaysTrue },
    { family := "chia", opName := "testTakeOffer",
      declaredWire := some DEFAULT_CHIA_METHODS.CHIA_TAKE_OFFER,
      storedMethod := some DEFAULT_CHIA_METHODS.CHIA_TAKE_OFFER,
      validSource := .alwaysTrue },
    { family := "chia", opName := "testCreateOfferForIds",
      declaredWire := some DEFAULT_CHIA_METHODS.CHIA_CREATE_OFFER_FOR_IDS,
      storedMethod := some DEFAULT_CHIA_METHODS.CHIA_CREATE_OFFER_FOR_IDS,
      validSource := .alwaysTrue },
    { family := "chia", opName := "testUnknownTestCommand",
      declaredWire := none, storedMethod := none, validSource := .alwaysTrue },
    { family := "chia", opName := "testShowOfferDataNotification",
      declaredWire := none, storedMethod := none, validSource := .alwaysTrue },
    { family := "chia", opName := "testShowAnnouncementNotification",
      declaredWire := none, storedMethod := none, validSource := .alwaysTrue } ]

/-- Helper: Array.prototype.find with an equality predicate returns the
sought element when it is present. -/
theorem find_beq_of_mem (l : List String) (x : String) (h : x ∈ l) :
    l.find? (fun a => a == x) = some x := by
  induction l with
  | nil => simp at h
  | cons hd tl ih =>
    by_cases hx : hd = x
    · subst hx; simp [List.find?]
    · have hb : (hd == x) = false := beq_eq_false_iff_ne.mpr hx
      rw [List.find?_cons_of_neg _ (by simp [hb])]
      rcases List.mem_cons.mp h with h1 | h2
      · exact absurd h1.symm hx
      · exact ih h2

/-- Helper: Array.prototype.find with an equality predicate returns
undefined when the sought element is absent. -/
theorem find_beq_of_not_mem (l : List String) (x : String) (h : x ∉ l) :
    l.find? (fun a => a == x) = none := by
  rw [List.find?_eq_none]
  intro a ha hba
  exact h (beq_iff_eq.mp hba ▸ ha)

/-- Claim C1: for every wrapped chain operation whose inner routine throws
an error message after the client/session checks pass, the dispatch
wrapper resolves (does not rethrow) and leaves the provider state with
pending = false and a stored result record whose valid field is false,
whose result field is the error message, and which carries no method
field — regardless of the prior state, so the failure is never silently
dropped. -/
theorem wrapper_stores_error_as_invalid_record
    (client : SignClient) (session : Session)
    (rpcRequest : String → String → Except String IFormattedRpcResponse)
    (chainId address msg : String) (s : RpcState)
    (h : rpcRequest chainId address = .error msg) :
    invokeWrapped (some client) (some session) rpcRequest chainId address s =
      ({ pending := false,
         result := some { method := none, address := some address,
                          valid := false, result := msg } }, none) := by
  simp [invokeWrapped, _createJsonRpcRequestHandler, h, applyEvents, applyEvent]

/-- Witness for C1 at a concrete failing inner routine. -/
theorem wrapper_stores_error_as_invalid_record_witness :
    invokeWrapped (some SignClient.mk) (some { topic := "t" })
      (fun _ _ => .error "boom") "eip155:1" "0xab"
      { pending := false, result := none } =
      ({ pending := false,
         result := some { method := none, address := some "0xab",
                          valid := false, result := "boom" } }, none) :=
  wrapper_stores_error_as_invalid_record SignClient.mk { topic := "t" }
    (fun _ _ => .error "boom") "eip155:1" "0xab" "boom"
    { pending := false, result := none } rfl

/-- Claim C2: invoking any wrapped operation while the client or the
session handle is undefined throws the corresponding error
("WalletConnect is not initialized" / "Session is not connected") before
any state mutation: the handler produces no setPending/setResult event at
all, so invoking from any state returns that state unchanged — in
particular a pending flag that was false ends false and the stored result
record is untouched. -/
theorem wrapper_precondition_failure_leaves_state_unchanged :
    (∀ (session : Option Session)
       (rpcRequest : String → String → Except String IFormattedRpcResponse)
       (chainId address : String),
       _createJsonRpcRequestHandler none session rpcRequest chainId address =
         .error "WalletConnect is not initialized") ∧
    (∀ (client : SignClient)
       (rpcRequest : String → String → Except String IFormattedRpcResponse)
       (chainId address : String),
       _createJsonRpcRequestHandler (some client) none rpcRequest chainId address =
         .error "Session is not connected") ∧
    (∀ (session : Option Session)
       (rpcRequest : String → String → Except String IFormattedRpcResponse)
       (chainId address : String) (s : RpcState),
       invokeWrapped none session rpcRequest chainId address s =
         (s, some "WalletConnect is not initialized")) ∧
    (∀ (client : SignClient)
       (rpcRequest : String → String → Except String IFormattedRpcResponse)
       (chainId address : String) (s : RpcState),
       invokeWrapped (some client) none rpcRequest chainId address s =
         (s, some "Session is not connected")) := by
  refine ⟨fun _ _ _ _ => rfl, fun _ _ _ _ => rfl, fun _ _ _ _ _ => rfl,
    fun _ _ _ _ _ => rfl⟩

/-- Claim C3: for every wrapped operation invoked with a defined client
and session, the event trace starts by setting pending to true, and after
the whole trace runs — on the success path and on every failure path of
the inner routine — the pending flag is false: no execution leaves it
permanently true. -/
theorem wrapper_pending_true_at_entry_false_on_exit
    (client : SignClient) (session : Session)
    (rpcRequest : String → String → Except String IFormattedRpcResponse)
    (chainId address : String) (s : RpcState) :
    ∃ evs, _createJsonRpcRequestHandler (some client) (some session)
        rpcRequest chainId address = .ok evs ∧
      evs.head? = some (.setPending true) ∧
      (applyEvents s evs).pending = false := by
  cases h : rpcRequest chainId address with
  | ok r =>
    refine ⟨[.setPending true, .setResult r, .setPending false], ?_, rfl, rfl⟩
    simp [_createJsonRpcRequestHandler, h]
  | error msg =>
    refine ⟨[.setPending true,
             .setResult { method := none, address := some address,
                          valid := false, result := msg },
             .setPending false], ?_, rfl, rfl⟩
    simp [_createJsonRpcRequestHandler, h]

/-- Claim C10: with a defined client and session, the callable returned by
the dispatch wrapper never rejects: whatever the inner routine's outcome,
the awaited invocation resolves (no propagated error), every inner failure
having been converted into a stored record by the catch block. -/
theorem wrapper_never_rejects_with_live_session
    (client : SignClient) (session : Session)
    (rpcRequest : String → String → Except String IFormattedRpcResponse)
    (chainId address : String) (s : RpcState) :
    (invokeWrapped (some client) (some session) rpcRequest chainId address s).snd
      = none := by
  cases h : rpcRequest chainId address <;>
    simp [invokeWrapped, _createJsonRpcRequestHandler, h]

/-- Claim C4: whenever the account exists in the session account list and
its (coerced) balance is strictly below gasPrice * gasLimit of the
formatted test transaction, the EVM testSendTransaction routine returns —
without throwing — the record with method eth_sendTransaction, valid =
false and result "Insufficient funds for intrinsic transaction cost", and
sends nothing over the session transport (its wire-request list is
empty), for every possible transport. -/
theorem eth_send_insufficient_funds_short_circuit
    (accounts : List String) (balances : String → Option Nat) (tx : EthTx)
    (transport : WireRequest → Except String String)
    (chainId address : String) (b : Nat)
    (hmem : (chainId ++ ":" ++ address) ∈ accounts)
    (hbal : balances (chainId ++ ":" ++ address) = some b)
    (hlt : b < tx.gasPrice * tx.gasLimit) :
    ethTestSendTransaction accounts balances tx transport chainId address =
      ([], .ok { method := some DEFAULT_EIP155_METHODS.ETH_SEND_TRANSACTION,
                 address := some address, valid := false,
                 result := "Insufficient funds for intrinsic transaction cost" }) := by
  simp [ethTestSendTransaction, find_beq_of_mem _ _ hmem, hbal, hlt]

/-- Witness for C4: balance 0, positive gasPrice * gasLimit, transport that
would fail if it were ever consulted. -/
theorem eth_send_insufficient_funds_short_circuit_witness :
    ethTestSendTransaction ["eip155:1:0xab"] (fun _ => some 0)
      { gasPrice := 1, gasLimit := 21000 } (fun _ => .error "no transport")
      "eip155:1" "0xab" =
      ([], .ok { method := some DEFAULT_EIP155_METHODS.ETH_SEND_TRANSACTION,
                 address := some "0xab", valid := false,
                 result := "Insufficient funds for intrinsic transaction cost" }) :=
  eth_send_insufficient_funds_short_circuit ["eip155:1:0xab"] (fun _ => some 0)
    { gasPrice := 1, gasLimit := 21000 } (fun _ => .error "no transport")
    "eip155:1" "0xab" 0 (by decide) rfl (by decide)

/-- Claim C5: the Elrond batch-signing routine stores as valid exactly the
conjunction of the three per-transaction verifier verdicts on the three
fixtures with the corresponding returned signatures; in particular (second
conjunct) a verifier that rejects exactly the second fixture makes the
overall valid false. -/
theorem elrond_batch_valid_is_conjunction
    (verify : ElrondTransaction → String → Bool)
    (s1 s2 s3 chainId address : String) :
    (elrondTestSignTransactions verify (fun _ => .ok [s1, s2, s3])
        chainId address =
      ([{ method := some DEFAULT_ELROND_METHODS.ELROND_SIGN_TRANSACTIONS }],
       .ok { method := some DEFAULT_ELROND_METHODS.ELROND_SIGN_TRANSACTIONS,
             address := some address,
             valid :=
               (verify (elrondTestTransaction address (referencePart chainId)) s1 &&
                verify (elrondTestTransaction2 address (referencePart chainId)) s2) &&
               verify (elrondTestTransaction3 address (referencePart chainId)) s3,
             result := String.intercalate ", " [s1, s2, s3] })) ∧
    (elrondTestSignTransactions
        (fun t _ => decide (t.nonce ≠ 2)) (fun _ => .ok [s1, s2, s3])
        chainId address).snd =
      .ok { method := some DEFAULT_ELROND_METHODS.ELROND_SIGN_TRANSACTIONS,
            address := some address, valid := false,
            result := String.intercalate ", " [s1, s2, s3] } := by
  constructor
  · simp [elrondTestSignTransactions, applyEvents]
  · simp [elrondTestSignTransactions, elrondTestTransaction,
      elrondTestTransaction2, elrondTestTransaction3]

/-- Counterexample to claim C6 as stated: it is not the case that every
method-table entry stores a method equal to (and given by) a non-empty
declared enum constant — the testEthSign entry declares the constant
eth_sign but stores "eth_sign (standard)", and the three Chia entries
whose enum members are not declared store an undefined method. -/
theorem method_table_claim_counterexample :
    ¬ (∀ e ∈ methodTable,
        e.storedMethod = e.declaredWire ∧ e.declaredWire.isSome = true ∧
        e.declaredWire ≠ some "") := by
  decide

/-- Claim C6 (amended): every method-table entry with a declared enum
constant has that constant non-empty, and stores exactly it as the result
record's method — except testEthSign, which declares eth_sign but stores
"eth_sign (standard)"; the only entries without a declared constant are
the three Chia operations (unknown-test-command and the two
show-notification operations) whose referenced enum members do not exist
in default.ts, and they store an undefined method. -/
theorem method_table_stored_method_amended :
    ∀ e ∈ methodTable,
      (e.declaredWire = none →
        e.family = "chia" ∧ e.storedMethod = none ∧
        (e.opName = "testUnknownTestCommand" ∨
         e.opName = "testShowOfferDataNotification" ∨
         e.opName = "testShowAnnouncementNotification")) ∧
      (e.declaredWire.isSome = true →
        e.declaredWire ≠ some "" ∧
        (e.storedMethod = e.declaredWire ∨
          (e.opName = "testEthSign" ∧ e.declaredWire = some "eth_sign" ∧
           e.storedMethod = some "eth_sign (standard)"))) := by
  decide

/-- Witness for the amended C6, instantiated at the chia testGetWallets
entry of the table. -/
theorem method_table_stored_method_amended_witness :
    (({ family := "chia", opName := "testGetWallets",
        declaredWire := some "chia_getWallets",
        storedMethod := some "chia_getWallets",
        validSource := .alwaysTrue } : MethodEntry).declaredWire = none →
      ({ family := "chia", opName := "testGetWallets",
         declaredWire := some "chia_getWallets",
         storedMethod := some "chia_getWallets",
         validSource := .alwaysTrue } : MethodEntry).family = "chia" ∧
      ({ family := "chia", opName := "testGetWallets",
         declaredWire := some "chia_getWallets",
         storedMethod := some "chia_getWallets",
         validSource := .alwaysTrue } : MethodEntry).storedMethod = none ∧
      (({ family := "chia", opName := "testGetWallets",
          declaredWire := some "chia_getWallets",
          storedMethod := some "chia_getWallets",
          validSource := .alwaysTrue } : MethodEntry).opName = "testUnknownTestCommand" ∨
       ({ family := "chia", opName := "testGetWallets",
          declaredWire := some "chia_getWallets",
          storedMethod := some "chia_getWallets",
          validSource := .alwaysTrue } : MethodEntry).opName = "testShowOfferDataNotification" ∨
       ({ family := "chia", opName := "testGetWallets",
          declaredWire := some "chia_getWallets",
          storedMethod := some "chia_getWallets",
          validSource := .alwaysTrue } : MethodEntry).opName = "testShowAnnouncementNotification")) ∧
    (({ family := "chia", opName := "testGetWallets",
        declaredWire := some "chia_getWallets",
        storedMethod := some "chia_getWallets",
        validSource := .alwaysTrue } : MethodEntry).declaredWire.isSome = true →
      ({ family := "chia", opName := "testGetWallets",
         declaredWire := some "chia_getWallets",
         storedMethod := some "chia_getWallets",
         validSource := .alwaysTrue } : MethodEntry).declaredWire ≠ some "" ∧
      (({ family := "chia", opName := "testGetWallets",
          declaredWire := some "chia_getWallets",
          storedMethod := some "chia_getWallets",
          validSource := .alwaysTrue } : MethodEntry).storedMethod =
        ({ family := "chia", opName := "testGetWallets",
           declaredWire := some "chia_getWallets",
           storedMethod := some "chia_getWallets",
           validSource := .alwaysTrue } : MethodEntry).declaredWire ∨
        (({ family := "chia", opName := "testGetWallets",
            declaredWire := some "chia_getWallets",
            storedMethod := some "chia_getWallets",
            validSource := .alwaysTrue } : MethodEntry).opName = "testEthSign" ∧
         ({ family := "chia", opName := "testGetWallets",
            declaredWire := some "chia_getWallets",
            storedMethod := some "chia_getWallets",
            validSource := .alwaysTrue } : MethodEntry).declaredWire = some "eth_sign" ∧
         ({ family := "chia", opName := "testGetWallets",
            declaredWire := some "chia_getWallets",
            storedMethod := some "chia_getWallets",
            validSource := .alwaysTrue } : MethodEntry).storedMethod =
           some "eth_sign (standard)"))) :=
  method_table_stored_method_amended
    { family := "chia", opName := "testGetWallets",
      declaredWire := some "chia_getWallets",
      storedMethod := some "chia_getWallets",
      validSource := .alwaysTrue } (by decide)

/-- Counterexample to claim C7 as stated: not every chain operation
computes the stored valid flag through a client-side verifier — the chia
testGetWallets handler has no verifier at all and stores the literal true
for any wallet response, as its concrete run shows. -/
theorem valid_source_claim_counterexample :
    (¬ ∀ e ∈ methodTable, e.validSource = ValidSource.verifier) ∧
    chiaTestGetWallets (fun _ => .ok "walletsJson") "chia:mainnet" "3698254" =
      ([{ method := some "chia_getWallets" }],
       .ok { method := some "chia_getWallets", address := some "3698254",
             valid := true, result := "walletsJson" }) :=
  ⟨by decide, rfl⟩

/-- Claim C7 (amended): the stored valid flag is the verdict of a
client-side verifier exactly for the signing operations of the EVM,
Cosmos, Solana, Polkadot and Elrond families; the Chia-family and NEAR
operations and the EVM testSendTransaction instead store the literal true
on success.  The second conjunct exhibits the verifier computation for a
representative verified operation (personal_sign): the stored valid is the
verifier's verdict on the original message and returned signature, not a
value taken from the wallet response. -/
theorem valid_source_table_amended :
    (∀ e ∈ methodTable,
      e.validSource = ValidSource.alwaysTrue ↔
        (e.family = "chia" ∨ e.family = "near" ∨
         (e.family = "eip155" ∧ e.opName = "testSendTransaction"))) ∧
    (∀ (chainData : String → String → Option ChainData)
       (verify : String → String → String → Bool)
       (transport : WireRequest → Except String String)
       (chainId address m sig : String) (d : ChainData),
      lookupChainData chainData chainId = some d →
      transport { method := some DEFAULT_EIP155_METHODS.PERSONAL_SIGN } = .ok sig →
      (ethTestSignPersonalMessage chainData verify transport chainId address m).snd =
        .ok { method := some DEFAULT_EIP155_METHODS.PERSONAL_SIGN,
              address := some address, valid := verify m sig address,
              result := sig }) := by
  refine ⟨by decide, ?_⟩
  intro chainData verify transport chainId address m sig d hlook htr
  simp [ethTestSignPersonalMessage, htr, hlook]

/-- Witness for the amended C7: the table fact at the cosmos
testSignDirect entry, and the personal_sign conjunct at concrete inputs. -/
theorem valid_source_table_amended_witness :
    (({ family := "cosmos", opName := "testSignDirect",
        declaredWire := some "cosmos_signDirect",
        storedMethod := some "cosmos_signDirect",
        validSource := .verifier } : MethodEntry).validSource =
          ValidSource.alwaysTrue ↔
      (({ family := "cosmos", opName := "testSignDirect",
          declaredWire := some "cosmos_signDirect",
          storedMethod := some "cosmos_signDirect",
          validSource := .verifier } : MethodEntry).family = "chia" ∨
       ({ family := "cosmos", opName := "testSignDirect",
          declaredWire := some "cosmos_signDirect",
          storedMethod := some "cosmos_signDirect",
          validSource := .verifier } : MethodEntry).family = "near" ∨
       (({ family := "cosmos", opName := "testSignDirect",
           declaredWire := some "cosmos_signDirect",
           storedMethod := some "cosmos_signDirect",
           validSource := .verifier } : MethodEntry).family = "eip155" ∧
        ({ family := "cosmos", opName := "testSignDirect",
           declaredWire := some "cosmos_signDirect",
           storedMethod := some "cosmos_signDirect",
           validSource := .verifier } : MethodEntry).opName =
          "testSendTransaction"))) ∧
    (ethTestSignPersonalMessage (fun _ _ => some ChainData.mk)
        (fun _ _ _ => false) (fun _ => .ok "0xsig") "eip155:1" "0xab" "m").snd =
      .ok { method := some DEFAULT_EIP155_METHODS.PERSONAL_SIGN,
            address := some "0xab", valid := false, result := "0xsig" } :=
  ⟨(valid_source_table_amended.1
      { family := "cosmos", opName := "testSignDirect",
        declaredWire := some "cosmos_signDirect",
        storedMethod := some "cosmos_signDirect",
        validSource := .verifier } (by decide)),
   (valid_source_table_amended.2 (fun _ _ => some ChainData.mk)
      (fun _ _ _ => false) (fun _ => .ok "0xsig") "eip155:1" "0xab" "m" "0xsig"
      ChainData.mk (by rfl) rfl)⟩

/-- Counterexample to claim C8 as stated: running testSignPersonalMessage
with chain metadata missing for eip155:1 does raise "Missing chain data
for chainId: eip155:1", but the wire-request list of the run is non-empty
— the request had already been sent over the session transport before the
check, so the error is not raised before the network call. -/
theorem missing_chain_data_after_request_counterexample :
    ethTestSignPersonalMessage (fun _ _ => none) (fun _ _ _ => true)
        (fun _ => .ok "0xsig") "eip155:1" "0xab" "m" =
      ([{ method := some "personal_sign" }],
       .error "Missing chain data for chainId: eip155:1") ∧
    ([{ method := some "personal_sign" }] : List WireRequest) ≠ [] :=
  ⟨rfl, by decide⟩

/-- Claim C8 (amended): for every operation that consults chain metadata
(personal_sign, eth_sign, cosmos_signDirect, cosmos_signAmino), a missing
entry for the chainId's (namespace, reference) raises exactly the error
"Missing chain data for chainId: <chainId>" — but only after the signing
request has been sent over the session transport (each run's wire-request
list contains the request), the check sitting between the awaited wallet
response and the verification step; no result record is produced. -/
theorem missing_chain_data_error_after_transport
    (chainData : String → String → Option ChainData)
    (verify : String → String → String → Bool)
    (verifyDirect verifyAmino : String → String → Bool)
    (transport : WireRequest → Except String String)
    (chainId address m sig : String)
    (hlook : lookupChainData chainData chainId = none) :
    (transport { method := some DEFAULT_EIP155_METHODS.PERSONAL_SIGN } = .ok sig →
      ethTestSignPersonalMessage chainData verify transport chainId address m =
        ([{ method := some DEFAULT_EIP155_METHODS.PERSONAL_SIGN }],
         .error ("Missing chain data for chainId: " ++ chainId))) ∧
    (transport { method := some DEFAULT_EIP155_METHODS.ETH_SIGN } = .ok sig →
      ethTestEthSign chainData verify transport chainId address m =
        ([{ method := some DEFAULT_EIP155_METHODS.ETH_SIGN }],
         .error ("Missing chain data for chainId: " ++ chainId))) ∧
    (transport { method := some DEFAULT_COSMOS_METHODS.COSMOS_SIGN_DIRECT } = .ok sig →
      cosmosTestSignDirect chainData verifyDirect transport chainId address =
        ([{ method := some DEFAULT_COSMOS_METHODS.COSMOS_SIGN_DIRECT }],
         .error ("Missing chain data for chainId: " ++ chainId))) ∧
    (transport { method := some DEFAULT_COSMOS_METHODS.COSMOS_SIGN_AMINO } = .ok sig →
      cosmosTestSignAmino chainData verifyAmino transport chainId address =
        ([{ method := some DEFAULT_COSMOS_METHODS.COSMOS_SIGN_AMINO }],
         .error ("Missing chain data for chainId: " ++ chainId))) := by
  refine ⟨fun htr => ?_, fun htr => ?_, fun htr => ?_, fun htr => ?_⟩ <;>
    simp [ethTestSignPersonalMessage, ethTestEthSign, cosmosTestSignDirect,
      cosmosTestSignAmino, htr, hlook]

/-- Witness for the amended C8 at concrete inputs with metadata missing. -/
theorem missing_chain_data_error_after_transport_witness :
    (((fun (_ : WireRequest) => (.ok "0xsig" : Except String String))
        { method := some DEFAULT_EIP155_METHODS.PERSONAL_SIGN } = .ok "0xsig") →
      ethTestSignPersonalMessage (fun _ _ => none) (fun _ _ _ => true)
          (fun _ => .ok "0xsig") "eip155:5" "0xab" "m" =
        ([{ method := some DEFAULT_EIP155_METHODS.PERSONAL_SIGN }],
         .error ("Missing chain data for chainId: " ++ "eip155:5"))) ∧
    (((fun (_ : WireRequest) => (.ok "0xsig" : Except String String))
        { method := some DEFAULT_EIP155_METHODS.ETH_SIGN } = .ok "0xsig") →
      ethTestEthSign (fun _ _ => none) (fun _ _ _ => true)
          (fun _ => .ok "0xsig") "eip155:5" "0xab" "m" =
        ([{ method := some DEFAULT_EIP155_METHODS.ETH_SIGN }],
         .error ("Missing chain data for chainId: " ++ "eip155:5"))) ∧
    (((fun (_ : WireRequest) => (.ok "0xsig" : Except String String))
        { method := some DEFAULT_COSMOS_METHODS.COSMOS_SIGN_DIRECT } = .ok "0xsig") →
      cosmosTestSignDirect (fun _ _ => none) (fun _ _ => true)
          (fun _ => .ok "0xsig") "eip155:5" "0xab" =
        ([{ method := some DEFAULT_COSMOS_METHODS.COSMOS_SIGN_DIRECT }],
         .error ("Missing chain data for chainId: " ++ "eip155:5"))) ∧
    (((fun (_ : WireRequest) => (.ok "0xsig" : Except String String))
        { method := some DEFAULT_COSMOS_METHODS.COSMOS_SIGN_AMINO } = .ok "0xsig") →
      cosmosTestSignAmino (fun _ _ => none) (fun _ _ => true)
          (fun _ => .ok "0xsig") "eip155:5" "0xab" =
        ([{ method := some DEFAULT_COSMOS_METHODS.COSMOS_SIGN_AMINO }],
         .error ("Missing chain data for chainId: " ++ "eip155:5"))) :=
  missing_chain_data_error_after_transport (fun _ _ => none) (fun _ _ _ => true)
    (fun _ _ => true) (fun _ _ => true) (fun _ => .ok "0xsig")
    "eip155:5" "0xab" "m" "0xsig" rfl

/-- Counterexample to claim C9 as stated: the personal_sign signing
operation performs no session-account-list check at all — with an empty
authorized account list (so chainId:address is certainly absent) it still
sends its request over the transport and returns a normal record instead
of failing with a precondition error. -/
theorem personal_sign_no_account_check_counterexample :
    (("eip155:1" ++ ":" ++ "0xab") ∉ ([] : List String)) ∧
    ethTestSignPersonalMessage (fun _ _ => some ChainData.mk) (fun _ _ _ => true)
        (fun _ => .ok "0xsig") "eip155:1" "0xab" "m" =
      ([{ method := some "personal_sign" }],
       .ok { method := some "personal_sign", address := some "0xab",
             valid := true, result := "0xsig" }) :=
  ⟨by decide, rfl⟩

/-- Claim C9 (amended): only the EVM testSendTransaction and
testSignTransaction operations check that chainId:address is in the
session's account list; when it is absent they throw "Account for
<chainId:address> not found" before sending anything over the transport
(their wire-request list is empty); the other signing operations perform
no such check. -/
theorem eth_account_precondition_before_transport
    (accounts : List String) (balances : String → Option Nat) (tx : EthTx)
    (verifySignedTx : String → Bool)
    (transport : WireRequest → Except String String)
    (chainId address : String)
    (h : (chainId ++ ":" ++ address) ∉ accounts) :
    ethTestSendTransaction accounts balances tx transport chainId address =
      ([], .error ("Account for " ++ (chainId ++ ":" ++ address) ++ " not found")) ∧
    ethTestSignTransaction accounts verifySignedTx transport chainId address =
      ([], .error ("Account for " ++ (chainId ++ ":" ++ address) ++ " not found")) := by
  constructor <;>
    simp [ethTestSendTransaction, ethTestSignTransaction,
      find_beq_of_not_mem _ _ h]

/-- Witness for the amended C9 with an empty account list. -/
theorem eth_account_precondition_before_transport_witness :
    ethTestSendTransaction [] (fun _ => some 0) { gasPrice := 1, gasLimit := 1 }
        (fun _ => .ok "tx") "eip155:1" "0xab" =
      ([], .error "Account for eip155:1:0xab not found") ∧
    ethTestSignTransaction [] (fun _ => true) (fun _ => .ok "tx")
        "eip155:1" "0xab" =
      ([], .error "Account for eip155:1:0xab not found") :=
  eth_account_precondition_before_transport [] (fun _ => some 0)
    { gasPrice := 1, gasLimit := 1 } (fun _ => true) (fun _ => .ok "tx")
    "eip155:1" "0xab" (by decide)
